import Mathlib

/-!
Shallow embedding of `zoom_earth_rain_alert.py`: the color classifier
(`rgb_to_hsv_deg`, `hue_in_ranges`, `is_rain_color`), the region sampler
(`avg_color`, `rain_coverage`), the clock parsing (`get_map_time_tuple`),
the time-alignment loop (`seek_to_target_time`) and the detection decision
of `main`.  Python floats are modelled by `ℚ`, Python ints by `ℤ`/`ℕ`,
raised exceptions by `Except`/`Option` values.
-/

/-- Model of Python `str.strip()` on the character list (ASCII and unicode
whitespace as recognised by `Char.isWhitespace`). -/
def stripChars (cs : List Char) : List Char :=
  ((cs.dropWhile Char.isWhitespace).reverse.dropWhile Char.isWhitespace).reverse

/-- Model of Python `str.strip()`. -/
def pyStrip (s : String) : String := ⟨stripChars s.data⟩

/-- Model of Python `str.upper()` (character-wise upper-casing). -/
def pyUpper (s : String) : String := ⟨s.data.map Char.toUpper⟩

/-- Prefix test on character lists (used for the substring test). -/
def leadsWith : List Char → List Char → Bool
  | [], _ => true
  | _ :: _, [] => false
  | a :: as, b :: bs => a = b && leadsWith as bs

/-- Substring test on character lists: does `n` occur contiguously in the
second list?  Models the Python `in` operator on strings. -/
def hasSub (n : List Char) : List Char → Bool
  | [] => leadsWith n []
  | c :: rest => leadsWith n (c :: rest) || hasSub n rest

/-- Model of the Python `needle in hay` substring test. -/
def containsSub (needle hay : String) : Bool := hasSub needle.data hay.data

/-- Decimal value of a digit list (used by the `int(...)` model). -/
def digitsVal (cs : List Char) : ℕ := cs.foldl (fun a c => a * 10 + (c.toNat - 48)) 0

/-- Parse a non-empty all-digit character list, else `none`. -/
def parseDigits (cs : List Char) : Option ℤ :=
  if cs ≠ [] ∧ cs.all Char.isDigit then some (digitsVal cs) else none

/-- Model of Python `int(s)` on an already-stripped string: an optional
sign followed by at least one ASCII digit; any other input raises
`ValueError`, modelled as `none`. -/
def pyParseInt (s : String) : Option ℤ :=
  match s.data with
  | '-' :: rest => (parseDigits rest).map (fun n => -n)
  | '+' :: rest => parseDigits rest
  | cs => parseDigits cs

/-- SATURATION_THRESHOLD = 0.26 from the configuration block. -/
def SATURATION_THRESHOLD : ℚ := 26 / 100

/-- HUE_RANGES_DEG from the configuration block. -/
def HUE_RANGES_DEG : List (ℚ × ℚ) := [(170, 260), (0, 60), (260, 330)]

/-- RAIN_SCORE_THRESHOLD = 110.0 from the configuration block (legacy). -/
def RAIN_SCORE_THRESHOLD : ℚ := 110

/-- Model of Python `x % 1.0` on a float: the fractional part in `[0,1)`. -/
def pymod1 (x : ℚ) : ℚ := x - ⌊x⌋

/-- Port of `colorsys.rgb_to_hsv` (used by `rgb_to_hsv_deg`): inputs and
outputs in `[0,1]`, hue as a fraction of a turn. -/
def rgb_to_hsv (r g b : ℚ) : ℚ × ℚ × ℚ :=
  let maxc := max r (max g b)
  let minc := min r (min g b)
  let v := maxc
  if minc = maxc then (0, 0, v)
  else
    let rangec := maxc - minc
    let s := rangec / maxc
    let rc := (maxc - r) / rangec
    let gc := (maxc - g) / rangec
    let bc := (maxc - b) / rangec
    let h := if r = maxc then bc - gc else if g = maxc then 2 + rc - bc else 4 + gc - rc
    (pymod1 (h / 6), s, v)

/-- Port of `rgb_to_hsv_deg`: RGB channels in `[0,255]` to (hue in degrees,
saturation in `[0,1]`, value in `[0,1]`). -/
def rgb_to_hsv_deg (rgb : ℚ × ℚ × ℚ) : ℚ × ℚ × ℚ :=
  let hsv := rgb_to_hsv (rgb.1 / 255) (rgb.2.1 / 255) (rgb.2.2 / 255)
  (hsv.1 * 360, hsv.2.1, hsv.2.2)

/-- Hue in degrees of an RGB color. -/
def hueOf (rgb : ℚ × ℚ × ℚ) : ℚ := (rgb_to_hsv_deg rgb).1

/-- HSV saturation of an RGB color. -/
def satOf (rgb : ℚ × ℚ × ℚ) : ℚ := (rgb_to_hsv_deg rgb).2.1

/-- HSV value of an RGB color. -/
def valOf (rgb : ℚ × ℚ × ℚ) : ℚ := (rgb_to_hsv_deg rgb).2.2

/-- Port of `hue_in_ranges`: inclusive interval when `a ≤ b`, wraparound
(`h ≥ a` or `h ≤ b`) when `a > b`. -/
def hue_in_ranges (h_deg : ℚ) : List (ℚ × ℚ) → Bool
  | [] => false
  | (a, b) :: rest =>
    (if a ≤ b then decide (a ≤ h_deg ∧ h_deg ≤ b)
     else decide (h_deg ≥ a ∨ h_deg ≤ b)) || hue_in_ranges h_deg rest

/-- Which branch of `is_rain_color` produced the verdict; models the
human-readable reason string of the source (low saturation / hue outside
the rain ramp / hit), carrying the HSV triple the string reports. -/
inductive RainReason where
  | lowSat (h s v : ℚ)
  | offRamp (h s v : ℚ)
  | hitRamp (h s v : ℚ)
deriving DecidableEq

/-- Port of `is_rain_color`: saturation filter first, then hue-range test. -/
def is_rain_color (rgb : ℚ × ℚ × ℚ) : Bool × RainReason :=
  let hsv := rgb_to_hsv_deg rgb
  let h := hsv.1
  let s := hsv.2.1
  let v := hsv.2.2
  if s < SATURATION_THRESHOLD then (false, .lowSat h s v)
  else if hue_in_ranges h HUE_RANGES_DEG then (true, .hitRamp h s v)
  else (false, .offRamp h s v)

/-- A raster image: dimensions plus a pixel map (row-major RGB bytes, as
`getdata` yields after `.convert("RGB")`). -/
structure Img where
  width : ℕ
  height : ℕ
  pixel : ℕ → ℕ → ℕ × ℕ × ℕ

/-- Index list of the clamped square region used by both `avg_color` and
`rain_coverage`: `x0 = max(cx-radius,0)`, `x1 = min(cx+radius,width-1)`
(and likewise vertically), row-major as PIL `crop`/`getdata` yield it. -/
def regionIdx (img : Img) (cx cy radius : ℤ) : List (ℤ × ℤ) :=
  let x0 := max (cx - radius) 0
  let y0 := max (cy - radius) 0
  let x1 := min (cx + radius) ((img.width : ℤ) - 1)
  let y1 := min (cy + radius) ((img.height : ℤ) - 1)
  (List.range (y1 + 1 - y0).toNat).flatMap fun dy =>
    (List.range (x1 + 1 - x0).toNat).map fun (dx : ℕ) => (x0 + (dx : ℤ), y0 + (dy : ℤ))

/-- Pixels of the clamped region. -/
def regionColors (img : Img) (cx cy radius : ℤ) : List (ℕ × ℕ × ℕ) :=
  (regionIdx img cx cy radius).map fun p => img.pixel p.1.toNat p.2.toNat

/-- The Python code feeds pixel bytes to `is_rain_color` as floats. -/
def toColorQ (p : ℕ × ℕ × ℕ) : ℚ × ℚ × ℚ := ((p.1 : ℚ), (p.2.1 : ℚ), (p.2.2 : ℚ))

/-- Is the crop box `(x0, y0, x1+1, y1+1)` not inverted?  PIL `Image.crop`
raises `ValueError` when right < left or lower < upper. -/
def boxOk (img : Img) (cx cy radius : ℤ) : Bool :=
  decide (max (cx - radius) 0 ≤ min (cx + radius) ((img.width : ℤ) - 1) + 1) &&
    decide (max (cy - radius) 0 ≤ min (cy + radius) ((img.height : ℤ) - 1) + 1)

/-- Model of `img.crop((x0, y0, x1+1, y1+1)).convert("RGB").getdata()` as
called by `avg_color` and `rain_coverage`: PIL raises `ValueError` on an
inverted box, otherwise yields the row-major region pixels. -/
def crop_region (img : Img) (cx cy radius : ℤ) : Except String (List (ℕ × ℕ × ℕ)) :=
  let x0 := max (cx - radius) 0
  let y0 := max (cy - radius) 0
  let x1 := min (cx + radius) ((img.width : ℤ) - 1)
  let y1 := min (cy + radius) ((img.height : ℤ) - 1)
  if x1 + 1 < x0 then .error "Coordinate right is less than left"
  else if y1 + 1 < y0 then .error "Coordinate lower is less than upper"
  else .ok (regionColors img cx cy radius)

/-- Debug information of `rain_coverage` (the formatted string of the
source, reduced to the data it reports). -/
inductive CovInfo where
  | emptyRegion
  | sampled (hit total : ℕ)
deriving DecidableEq

/-- Port of `rain_coverage`: fraction of region pixels classified as rain
by `is_rain_color`, `(0.0, "empty region")` on an empty region, and a
propagated `ValueError` when PIL rejects the crop box. -/
def rain_coverage (img : Img) (cx cy radius : ℤ) : Except String (ℚ × CovInfo) :=
  match crop_region img cx cy radius with
  | .error e => .error e
  | .ok pixels =>
    if pixels = [] then .ok (0, .emptyRegion)
    else
      let hit := (pixels.filter fun p => (is_rain_color (toColorQ p)).1).length
      .ok ((hit : ℚ) / (pixels.length : ℚ), .sampled hit pixels.length)

/-- Number of rain-classified pixels in the clamped region. -/
def hitCount (img : Img) (cx cy radius : ℤ) : ℕ :=
  ((regionColors img cx cy radius).filter fun p => (is_rain_color (toColorQ p)).1).length

/-- Number of pixels in the clamped region. -/
def totalCount (img : Img) (cx cy radius : ℤ) : ℕ :=
  (regionColors img cx cy radius).length

/-- Port of `avg_color`: per-channel mean of the clamped region,
`(0.0, 0.0, 0.0)` on an empty region, and a propagated `ValueError` when
PIL rejects the crop box. -/
def avg_color (img : Img) (cx cy radius : ℤ) : Except String (ℚ × ℚ × ℚ) :=
  match crop_region img cx cy radius with
  | .error e => .error e
  | .ok pixels =>
    if pixels = [] then .ok (0, 0, 0)
    else
      .ok ((pixels.map fun p => ((p.1 : ℚ))).sum / (pixels.length : ℚ),
        (pixels.map fun p => ((p.2.1 : ℚ))).sum / (pixels.length : ℚ),
        (pixels.map fun p => ((p.2.2 : ℚ))).sum / (pixels.length : ℚ))

/-- Port of `rain_score` (legacy debug score). -/
def rain_score (rgb : ℚ × ℚ × ℚ) : ℚ :=
  let warm := rgb.1
  let purple := (rgb.1 + rgb.2.2) * (6 / 10)
  let penalty_green := rgb.2.1 * (9 / 10)
  warm + purple - penalty_green

/-- Test `"下午" in ampm_txt or "PM" in ampm_txt.upper()` from
`get_map_time_tuple`. -/
def hasPMmark (s : String) : Bool := containsSub "下午" s || containsSub "PM" (pyUpper s)

/-- Test `"上午" in ampm_txt or "AM" in ampm_txt.upper()` from
`get_map_time_tuple`. -/
def hasAMmark (s : String) : Bool := containsSub "上午" s || containsSub "AM" (pyUpper s)

/-- The 12-to-24 hour adjustment of `get_map_time_tuple`: the PM branch
adds 12 to hours below 12, the AM branch maps hour 12 to 0. -/
def to24h (hour : ℤ) (ampm_txt : String) : ℤ :=
  if hasPMmark ampm_txt then (if hour < 12 then hour + 12 else hour)
  else if hasAMmark ampm_txt then (if hour = 12 then 0 else hour)
  else hour

/-- Port of `get_map_time_tuple`, taking the stripped-before-strip text
contents of the hour, minute and AM/PM page elements; every failure path
(blank text, unparsable int) yields `none` as the source catches all
exceptions. -/
def get_map_time_tuple (hour_raw minute_raw ampm_raw : String) : Option (ℤ × ℤ) :=
  let hour_txt := pyStrip hour_raw
  let minute_txt := pyStrip minute_raw
  let ampm_txt := pyStrip ampm_raw
  if hour_txt = "" ∨ minute_txt = "" then none
  else
    match pyParseInt hour_txt, pyParseInt minute_txt with
    | some hour, some minute => some (to24h hour ampm_txt, minute)
    | _, _ => none

/-- Port of the local `hhmm_ge` of `seek_to_target_time`. -/
def hhmm_ge (a b : ℤ × ℤ) : Bool :=
  decide (a.1 > b.1 ∨ (a.1 = b.1 ∧ a.2 ≥ b.2))

/-- Result of one `click_next` attempt: success, or the
`NextButtonNotClickable` signal. -/
inductive StepTry where
  | stepped
  | blocked
deriving DecidableEq

/-- Behaviour of the page-query collaborator, indexed by loop iteration:
what `get_map_time_tuple` returns on the i-th poll and whether the i-th
`click_next` succeeds or raises `NextButtonNotClickable`. -/
structure PageStub where
  readTime : ℕ → Option (ℤ × ℤ)
  advance : ℕ → StepTry

/-- How the alignment loop terminated. -/
inductive SeekOutcome where
  | reached
  | blockedStop
  | exhausted
deriving DecidableEq

/-- Body of the `for i in range(max_clicks)` loop of `seek_to_target_time`:
poll the clock, stop when the target is reached, otherwise attempt one
step, stopping on the blocked signal.  Returns the outcome together with
the number of successful steps and of blocked attempts. -/
def seekAux (stub : PageStub) (target : ℤ × ℤ) : ℕ → ℕ → SeekOutcome × ℕ × ℕ
  | 0, _ => (.exhausted, 0, 0)
  | fuel + 1, i =>
    let timeReached :=
      match stub.readTime i with
      | some t => hhmm_ge t target
      | none => false
    if timeReached then (.reached, 0, 0)
    else
      match stub.advance i with
      | .blocked => (.blockedStop, 0, 1)
      | .stepped =>
        let r := seekAux stub target fuel (i + 1)
        (r.1, r.2.1 + 1, r.2.2)

/-- The `max_clicks = 60` bound of `seek_to_target_time`. -/
def max_clicks : ℕ := 60

/-- Port of `seek_to_target_time` over a page stub and a precomputed
target `(hour, minute)`. -/
def seek_to_target_time (stub : PageStub) (target : ℤ × ℤ) : SeekOutcome × ℕ × ℕ :=
  seekAux stub target max_clicks 0

/-- Stub whose clock never reaches the target and whose forward-step
control reports the blocked signal on the third poll. -/
def blockedOnThirdStub : PageStub :=
  { readTime := fun _ => some (12, 0)
    advance := fun i => if i < 2 then .stepped else .blocked }

/-- Stub whose clock never reaches the target and whose steps always
succeed. -/
def neverReachStub : PageStub :=
  { readTime := fun _ => some (12, 0)
    advance := fun _ => .stepped }

/-- The JSON body `send_wecom_text` posts. -/
structure WecomPayload where
  msgtype : String
  content : String
deriving DecidableEq

/-- Payload construction of `send_wecom_text`. -/
def send_wecom_text (content : String) : WecomPayload :=
  { msgtype := "text", content := content }

/-- The detection message `main` builds when the coverage check fires. -/
def detect_msg (debug_msg url : String) : String :=
  "⚠️ 可能要下雨：你家附近检测到雷达回波色带覆盖。\n" ++ debug_msg ++ "\n" ++ url

/-- Outcome of the decision tail of `main`. -/
structure RunDecision where
  score : ℚ
  detected : Bool
  sent : List WecomPayload

/-- The decision tail of `main`: computes the legacy `rain_score`, fires
iff `coverage >= 0.10`, and posts the detection message exactly when it
fires.  The formatted debug string and URL enter as opaque strings. -/
def main_decide (rgb : ℚ × ℚ × ℚ) (coverage : ℚ) (debug_msg url : String) : RunDecision :=
  let score := rain_score rgb
  let ok : Bool := decide (coverage ≥ 10 / 100)
  let sent := if ok then [send_wecom_text (detect_msg debug_msg url)] else []
  { score := score, detected := ok, sent := sent }

/-- A 1-by-1 image holding one pure-blue pixel. -/
def imgBlue : Img := ⟨1, 1, fun _ _ => (0, 0, 255)⟩

/-- A zero-size image. -/
def imgZero : Img := ⟨0, 0, fun _ _ => (0, 0, 0)⟩

/-- Every run of the alignment loop performs at most `fuel` advance
attempts, at most one of them blocked. -/
theorem seekAux_bound (stub : PageStub) (target : ℤ × ℤ) (fuel i : ℕ) :
    (seekAux stub target fuel i).2.1 + (seekAux stub target fuel i).2.2 ≤ fuel ∧
      (seekAux stub target fuel i).2.2 ≤ 1 := by
  induction fuel generalizing i with
  | zero => simp [seekAux]
  | succ n ih =>
    obtain ⟨ih1, ih2⟩ := ih (i + 1)
    simp only [seekAux]
    cases hr : stub.readTime i with
    | none =>
      cases ha : stub.advance i with
      | blocked => refine ⟨?_, ?_⟩ <;> simp [hr, ha]
      | stepped =>
        refine ⟨?_, ?_⟩ <;> simp [hr, ha] <;> omega
    | some t =>
      cases hg : hhmm_ge t target with
      | true => refine ⟨?_, ?_⟩ <;> simp [hr, hg]
      | false =>
        cases ha : stub.advance i with
        | blocked => refine ⟨?_, ?_⟩ <;> simp [hr, hg, ha]
        | stepped =>
          refine ⟨?_, ?_⟩ <;> simp [hr, hg, ha] <;> omega

/-- C1: for every behaviour of the page-query collaborator the alignment
loop returns normally (a total outcome, no exception) after at most
`maxSteps` advance attempts (60 for `seek_to_target_time`); a stub that
blocks on the 3rd poll gives exactly 2 successful steps and 1 blocked
attempt; a clock that never reaches the target with maxSteps = 5 gives
exactly 5 advance attempts and returns. -/
theorem seek_loop_bounded :
    (∀ (stub : PageStub) (target : ℤ × ℤ) (fuel i : ℕ),
        (seekAux stub target fuel i).2.1 + (seekAux stub target fuel i).2.2 ≤ fuel ∧
        (seekAux stub target fuel i).2.2 ≤ 1) ∧
    (∀ (stub : PageStub) (target : ℤ × ℤ),
        (seek_to_target_time stub target).2.1 + (seek_to_target_time stub target).2.2 ≤ 60) ∧
    seek_to_target_time blockedOnThirdStub (23, 59) = (.blockedStop, 2, 1) ∧
    seekAux neverReachStub (23, 59) 5 0 = (.exhausted, 5, 0) := by
  refine ⟨seekAux_bound, fun stub target => (seekAux_bound stub target 60 0).1,
    by decide, by decide⟩

/-- C4: the displayed time is treated as having reached the target iff its
hour is larger, or hours are equal and its minute is at least the target
minute — same-day lexicographic order, no day rollover. -/
theorem hhmm_ge_lex :
    (∀ a b : ℤ × ℤ, hhmm_ge a b = true ↔ (b.1 < a.1 ∨ (a.1 = b.1 ∧ b.2 ≤ a.2))) ∧
    hhmm_ge (14, 5) (14, 0) = true ∧
    hhmm_ge (13, 59) (14, 0) = false ∧
    hhmm_ge (0, 1) (23, 59) = false := by
  refine ⟨fun a b => ?_, by decide, by decide, by decide⟩
  simp only [hhmm_ge, decide_eq_true_eq]

/-- C5: the 12-to-24 hour conversion follows the standard rules: 12 with a
PM marker stays 12, an hour below 12 with a PM marker gains 12, and 12
with an AM marker becomes 0; with the concrete examples of the spec. -/
theorem ampm_conversion_rule :
    (∀ ampm : String, hasPMmark ampm = true → to24h 12 ampm = 12) ∧
    (∀ (hr : ℤ) (ampm : String), hasPMmark ampm = true → hr < 12 → to24h hr ampm = hr + 12) ∧
    (∀ ampm : String, hasPMmark ampm = false → hasAMmark ampm = true → to24h 12 ampm = 0) ∧
    get_map_time_tuple "12" "30" "AM" = some (0, 30) ∧
    get_map_time_tuple "12" "00" "PM" = some (12, 0) ∧
    get_map_time_tuple "3" "15" "PM" = some (15, 15) := by
  refine ⟨?_, ?_, ?_, by decide, by decide, by decide⟩
  · intro ampm hpm; simp [to24h, hpm]
  · intro hr ampm hpm hlt; simp [to24h, hpm, hlt]
  · intro ampm hpm ham; simp [to24h, hpm, ham]

/-- Witness for C5, at hour 12 with marker "PM", hour 3 with marker "PM",
and hour 12 with marker "AM". -/
theorem ampm_conversion_rule_witness :
    (hasPMmark "PM" = true ∧ to24h 12 "PM" = 12) ∧
    to24h 3 "PM" = 15 ∧
    (hasPMmark "AM" = false ∧ hasAMmark "AM" = true ∧ to24h 12 "AM" = 0) :=
  ⟨⟨by decide, ampm_conversion_rule.1 "PM" (by decide)⟩,
   by
     have h := ampm_conversion_rule.2.1 3 "PM" (by decide) (by decide)
     omega,
   ⟨by decide, by decide, ampm_conversion_rule.2.2.1 "AM" (by decide) (by decide)⟩⟩

/-- Parsing the empty string fails, as `int("")` raises. -/
theorem pyParseInt_empty : pyParseInt "" = none := rfl

/-- A well-formed 12-hour display (hour in 1..12 with an AM or PM marker)
converts into 0..23. -/
theorem to24h_bounds (h : ℤ) (ampm : String) (h1 : 1 ≤ h) (h2 : h ≤ 12)
    (hmk : hasPMmark ampm = true ∨ hasAMmark ampm = true) :
    0 ≤ to24h h ampm ∧ to24h h ampm ≤ 23 := by
  rw [to24h]
  cases hpm : hasPMmark ampm with
  | true => simp only [hpm, if_true]; split_ifs <;> omega
  | false =>
    rcases hmk with hmk | hmk
    · rw [hpm] at hmk; cases hmk
    · simp only [hpm, hmk, Bool.false_eq_true, if_false, if_true]; split_ifs <;> omega

/-- C9 counterexample: element texts "99"/"99" with a blank marker produce
the non-absent value (99, 99), violating hour ≤ 23 and minute ≤ 59. -/
theorem get_map_time_out_of_range :
    get_map_time_tuple "99" "99" "" = some (99, 99) ∧
      ¬ ((99 : ℤ) ≤ 23) ∧ ¬ ((99 : ℤ) ≤ 59) :=
  ⟨by decide, by decide, by decide⟩

/-- C9 amended: a non-absent value of `get_map_time_tuple` satisfies the
TimeOfDay invariant (hour in 0..23, minute in 0..59) whenever the page
texts are well-formed clock texts — hour parsing to 1..12 with an AM or PM
marker present and minute parsing to 0..59; arbitrary texts (see the
counterexample) can escape the invariant, which the code never checks. -/
theorem time_tuple_wellformed :
    ∀ (hraw mraw araw : String) (h m hv mv : ℤ),
      get_map_time_tuple hraw mraw araw = some (hv, mv) →
      pyParseInt (pyStrip hraw) = some h →
      pyParseInt (pyStrip mraw) = some m →
      1 ≤ h → h ≤ 12 → 0 ≤ m → m ≤ 59 →
      (hasPMmark (pyStrip araw) = true ∨ hasAMmark (pyStrip araw) = true) →
      0 ≤ hv ∧ hv ≤ 23 ∧ 0 ≤ mv ∧ mv ≤ 59 := by
  intro hraw mraw araw h m hv mv hres hp hm h1 h2 m1 m2 hmk
  have hne : ¬ (pyStrip hraw = "" ∨ pyStrip mraw = "") := by
    rintro (e | e)
    · rw [e, pyParseInt_empty] at hp; cases hp
    · rw [e, pyParseInt_empty] at hm; cases hm
  simp only [get_map_time_tuple] at hres
  rw [if_neg hne] at hres
  rw [hp, hm] at hres
  simp only [Option.some.injEq, Prod.mk.injEq] at hres
  obtain ⟨rfl, rfl⟩ := hres.symm
  have hb := to24h_bounds h (pyStrip araw) h1 h2 hmk
  exact ⟨hb.1, hb.2, m1, m2⟩

/-- Witness for C9 (amended), at the well-formed display 12:30 AM. -/
theorem time_tuple_wellformed_witness :
    get_map_time_tuple "12" "30" "AM" = some (0, 30) ∧
      (0 ≤ (0 : ℤ) ∧ (0 : ℤ) ≤ 23 ∧ 0 ≤ (30 : ℤ) ∧ (30 : ℤ) ≤ 59) :=
  ⟨by decide,
   time_tuple_wellformed "12" "30" "AM" 12 30 0 30 (by decide) (by decide) (by decide)
     (by decide) (by decide) (by decide) (by decide) (Or.inr (by decide))⟩

/-- Gray colors (r = g = b) hit the early return of `rgb_to_hsv`: zero
saturation and zero (undefined) hue. -/
theorem hsv_gray (c : ℚ) : rgb_to_hsv_deg (c, c, c) = (0, 0, c / 255) := by
  simp [rgb_to_hsv_deg, rgb_to_hsv]

/-- Pure blue has hue 240, saturation 1, value 1. -/
theorem hsv_blue : rgb_to_hsv_deg (0, 0, 255) = (240, 1, 1) := by
  norm_num [rgb_to_hsv_deg, rgb_to_hsv, pymod1, max_def, min_def]

/-- Characterisation of `hue_in_ranges`: some listed range accepts the
hue, inclusively when low ≤ high and with wraparound when low > high. -/
theorem hue_in_ranges_iff (h : ℚ) (ranges : List (ℚ × ℚ)) :
    hue_in_ranges h ranges = true ↔
      ∃ p ∈ ranges, (p.1 ≤ p.2 ∧ p.1 ≤ h ∧ h ≤ p.2) ∨
        (p.2 < p.1 ∧ (p.1 ≤ h ∨ h ≤ p.2)) := by
  induction ranges with
  | nil => simp [hue_in_ranges]
  | cons q rest ih =>
    obtain ⟨a, b⟩ := q
    simp only [hue_in_ranges, Bool.or_eq_true, ih, List.mem_cons]
    constructor
    · rintro (hc | ⟨p, hp, hcond⟩)
      · refine ⟨(a, b), Or.inl rfl, ?_⟩
        by_cases hab : a ≤ b
        · rw [if_pos hab] at hc
          exact Or.inl ⟨hab, of_decide_eq_true hc⟩
        · rw [if_neg hab] at hc
          exact Or.inr ⟨lt_of_not_le hab, of_decide_eq_true hc⟩
      · exact ⟨p, Or.inr hp, hcond⟩
    · rintro ⟨p, rfl | hp, hcond⟩
      · rcases hcond with ⟨hab, hh⟩ | ⟨hba, hh⟩
        · exact Or.inl (by rw [if_pos hab]; exact decide_eq_true hh)
        · exact Or.inl (by rw [if_neg (not_le.mpr hba)]; exact decide_eq_true hh)
      · exact Or.inr ⟨p, hp, hcond⟩

/-- C2: at saturation at least the threshold, the verdict of
`is_rain_color` is exactly the hue-range membership; a range with
low ≤ high is the inclusive interval, a range with low > high wraps
around; with the default ranges, hue 300 is accepted and hues 350 and
100 are rejected. -/
theorem classify_hue_rule :
    (∀ rgb : ℚ × ℚ × ℚ, SATURATION_THRESHOLD ≤ satOf rgb →
        (is_rain_color rgb).1 = hue_in_ranges (hueOf rgb) HUE_RANGES_DEG) ∧
    (∀ (h : ℚ) (ranges : List (ℚ × ℚ)),
        hue_in_ranges h ranges = true ↔
          ∃ p ∈ ranges, (p.1 ≤ p.2 ∧ p.1 ≤ h ∧ h ≤ p.2) ∨
            (p.2 < p.1 ∧ (p.1 ≤ h ∨ h ≤ p.2))) ∧
    hue_in_ranges 300 HUE_RANGES_DEG = true ∧
    hue_in_ranges 350 HUE_RANGES_DEG = false ∧
    hue_in_ranges 100 HUE_RANGES_DEG = false := by
  refine ⟨?_, hue_in_ranges_iff, ?_, ?_, ?_⟩
  · intro rgb hs
    simp only [satOf] at hs
    simp only [is_rain_color, hueOf]
    rw [if_neg (not_lt.mpr hs)]
    cases hh : hue_in_ranges (rgb_to_hsv_deg rgb).1 HUE_RANGES_DEG <;> simp [hh]
  · norm_num [hue_in_ranges, HUE_RANGES_DEG, decide_eq_true_eq]
  · norm_num [hue_in_ranges, HUE_RANGES_DEG, decide_eq_true_eq]
  · norm_num [hue_in_ranges, HUE_RANGES_DEG, decide_eq_true_eq]

/-- Witness for C2, at pure blue (saturation 1, hue 240). -/
theorem classify_hue_rule_witness :
    SATURATION_THRESHOLD ≤ satOf (0, 0, 255) ∧
      (is_rain_color (0, 0, 255)).1 = hue_in_ranges (hueOf (0, 0, 255)) HUE_RANGES_DEG := by
  have hs : SATURATION_THRESHOLD ≤ satOf ((0 : ℚ), (0 : ℚ), (255 : ℚ)) := by
    rw [satOf, hsv_blue]; norm_num [SATURATION_THRESHOLD]
  exact ⟨hs, classify_hue_rule.1 (0, 0, 255) hs⟩

/-- C3: below-threshold saturation is rejected by the saturation branch
regardless of hue, and a gray color (r = g = b) has saturation exactly 0,
so it is rejected there — the hue test is never consulted, as the
`lowSat` reason records. -/
theorem classify_low_saturation :
    (∀ rgb : ℚ × ℚ × ℚ, satOf rgb < SATURATION_THRESHOLD →
        is_rain_color rgb = (false, .lowSat (hueOf rgb) (satOf rgb) (valOf rgb))) ∧
    (∀ c : ℚ, satOf (c, c, c) = 0 ∧
        is_rain_color (c, c, c) = (false, .lowSat 0 0 (c / 255))) := by
  constructor
  · intro rgb hs
    simp only [satOf] at hs
    simp only [is_rain_color, satOf, hueOf, valOf]
    rw [if_pos hs]
  · intro c
    have h0 : satOf (c, c, c) = 0 := by rw [satOf, hsv_gray]
    refine ⟨h0, ?_⟩
    simp only [is_rain_color, hsv_gray]
    norm_num [SATURATION_THRESHOLD]

/-- Witness for C3, at gray (100, 100, 100). -/
theorem classify_low_saturation_witness :
    satOf (100, 100, 100) < SATURATION_THRESHOLD ∧
      is_rain_color (100, 100, 100) =
        (false, .lowSat (hueOf (100, 100, 100)) (satOf (100, 100, 100))
          (valOf (100, 100, 100))) := by
  have hs : satOf ((100 : ℚ), (100 : ℚ), (100 : ℚ)) < SATURATION_THRESHOLD := by
    rw [satOf, hsv_gray]; norm_num [SATURATION_THRESHOLD]
  exact ⟨hs, classify_low_saturation.1 (100, 100, 100) hs⟩

/-- Every index the clamped region enumerates lies inside the image. -/
theorem regionIdx_mem (img : Img) (cx cy radius : ℤ) (p : ℤ × ℤ)
    (hp : p ∈ regionIdx img cx cy radius) :
    0 ≤ p.1 ∧ p.1 < (img.width : ℤ) ∧ 0 ≤ p.2 ∧ p.2 < (img.height : ℤ) := by
  simp only [regionIdx, List.mem_flatMap, List.mem_map, List.mem_range] at hp
  obtain ⟨dy, hdy, dx, hdx, heq⟩ := hp
  have hx : p.1 = max (cx - radius) 0 + (dx : ℤ) := by rw [← heq]
  have hy : p.2 = max (cy - radius) 0 + (dy : ℤ) := by rw [← heq]
  rw [hx, hy]
  omega

/-- A non-empty region index list forces a non-inverted crop box. -/
theorem regionIdx_ne_boxOk (img : Img) (cx cy radius : ℤ)
    (h : regionIdx img cx cy radius ≠ []) : boxOk img cx cy radius = true := by
  by_contra hb
  apply h
  simp only [boxOk, Bool.and_eq_true, decide_eq_true_eq] at hb
  simp only [regionIdx]
  rcases not_and_or.mp hb with hx | hy
  · have hc : (min (cx + radius) ((img.width : ℤ) - 1) + 1 - max (cx - radius) 0).toNat = 0 := by
      omega
    rw [hc]
    simp
  · have hc : (min (cy + radius) ((img.height : ℤ) - 1) + 1 - max (cy - radius) 0).toNat = 0 := by
      omega
    rw [hc]
    simp

/-- With a non-inverted box, the crop model yields the region pixels. -/
theorem crop_region_ok (img : Img) (cx cy radius : ℤ) (hb : boxOk img cx cy radius = true) :
    crop_region img cx cy radius = .ok (regionColors img cx cy radius) := by
  simp only [boxOk, Bool.and_eq_true, decide_eq_true_eq] at hb
  simp only [crop_region]
  rw [if_neg (by omega), if_neg (by omega)]

/-- Value of `rain_coverage` on a non-empty region. -/
theorem rain_coverage_ok_val (img : Img) (cx cy radius : ℤ)
    (hne : regionColors img cx cy radius ≠ []) :
    rain_coverage img cx cy radius =
      .ok ((hitCount img cx cy radius : ℚ) / (totalCount img cx cy radius : ℚ),
        .sampled (hitCount img cx cy radius) (totalCount img cx cy radius)) := by
  have hIdx : regionIdx img cx cy radius ≠ [] := by
    intro e
    apply hne
    rw [regionColors, e, List.map_nil]
  have hcrop := crop_region_ok img cx cy radius (regionIdx_ne_boxOk img cx cy radius hIdx)
  simp only [rain_coverage, hcrop]
  rw [if_neg hne]
  simp only [hitCount, totalCount]

/-- The coverage ratio of a non-empty region lies in [0, 1]. -/
theorem rain_coverage_ratio_bounds (img : Img) (cx cy radius : ℤ)
    (hne : regionColors img cx cy radius ≠ []) :
    0 ≤ (hitCount img cx cy radius : ℚ) / (totalCount img cx cy radius : ℚ) ∧
      (hitCount img cx cy radius : ℚ) / (totalCount img cx cy radius : ℚ) ≤ 1 := by
  have hpos : (0 : ℚ) < (totalCount img cx cy radius : ℚ) := by
    have := List.length_pos.mpr hne
    rw [totalCount]
    exact_mod_cast this
  constructor
  · positivity
  · rw [div_le_one hpos]
    exact_mod_cast List.length_filter_le _ _

/-- An empty region with a valid box yields ratio 0 and the empty-region
reason. -/
theorem rain_coverage_empty (img : Img) (cx cy radius : ℤ)
    (hb : boxOk img cx cy radius = true) (he : regionColors img cx cy radius = []) :
    rain_coverage img cx cy radius = .ok (0, .emptyRegion) := by
  have hcrop := crop_region_ok img cx cy radius hb
  simp only [rain_coverage, hcrop, he, if_pos]

/-- C6: on a non-empty clamped region, `rain_coverage` returns
`hitCount/totalCount` where each pixel is classified individually by
`is_rain_color`; the ratio lies in [0, 1], is exactly 1 when every pixel
is rain-classified and exactly 0 when no pixel is. -/
theorem coverage_per_pixel :
    ∀ (img : Img) (cx cy radius : ℤ), regionColors img cx cy radius ≠ [] →
      rain_coverage img cx cy radius =
          .ok ((hitCount img cx cy radius : ℚ) / (totalCount img cx cy radius : ℚ),
            .sampled (hitCount img cx cy radius) (totalCount img cx cy radius)) ∧
      0 ≤ (hitCount img cx cy radius : ℚ) / (totalCount img cx cy radius : ℚ) ∧
      (hitCount img cx cy radius : ℚ) / (totalCount img cx cy radius : ℚ) ≤ 1 ∧
      ((∀ p ∈ regionColors img cx cy radius, (is_rain_color (toColorQ p)).1 = true) →
        (hitCount img cx cy radius : ℚ) / (totalCount img cx cy radius : ℚ) = 1) ∧
      ((∀ p ∈ regionColors img cx cy radius, (is_rain_color (toColorQ p)).1 = false) →
        (hitCount img cx cy radius : ℚ) / (totalCount img cx cy radius : ℚ) = 0) := by
  intro img cx cy radius hne
  have hpos : (0 : ℚ) < (totalCount img cx cy radius : ℚ) := by
    have := List.length_pos.mpr hne
    rw [totalCount]
    exact_mod_cast this
  refine ⟨rain_coverage_ok_val img cx cy radius hne,
    (rain_coverage_ratio_bounds img cx cy radius hne).1,
    (rain_coverage_ratio_bounds img cx cy radius hne).2, ?_, ?_⟩
  · intro hall
    have hk : hitCount img cx cy radius = totalCount img cx cy radius := by
      rw [hitCount, totalCount, List.filter_eq_self.mpr hall]
    rw [hk, div_self (ne_of_gt hpos)]
  · intro hnone
    have hk : hitCount img cx cy radius = 0 := by
      rw [hitCount, List.filter_eq_nil_iff.mpr fun a ha => by simp [hnone a ha]]
      rfl
    rw [hk]
    simp

/-- Pure blue is classified as rain. -/
theorem is_rain_blue : (is_rain_color ((0 : ℚ), (0 : ℚ), (255 : ℚ))).1 = true := by
  norm_num [is_rain_color, hsv_blue, SATURATION_THRESHOLD, hue_in_ranges, HUE_RANGES_DEG,
    decide_eq_true_eq]

/-- Witness for C6, at a 1-by-1 all-blue image: coverage ratio 1. -/
theorem coverage_per_pixel_witness :
    regionColors imgBlue 0 0 0 ≠ [] ∧
      (hitCount imgBlue 0 0 0 : ℚ) / (totalCount imgBlue 0 0 0 : ℚ) = 1 := by
  have hne : regionColors imgBlue 0 0 0 ≠ [] := by decide
  refine ⟨hne, (coverage_per_pixel imgBlue 0 0 0 hne).2.2.2.1 ?_⟩
  intro p hp
  have hl : regionColors imgBlue 0 0 0 = [(0, 0, 255)] := by decide
  rw [hl] at hp
  have hp1 : p = (0, 0, 255) := by simpa using hp
  subst hp1
  have ht : toColorQ (0, 0, 255) = ((0 : ℚ), (0 : ℚ), (255 : ℚ)) := by
    norm_num [toColorQ]
  rw [ht]
  exact is_rain_blue

/-- C7 counterexample: a center 100 pixels beyond a 1-by-1 image inverts
the crop box, so `rain_coverage` propagates PIL ValueError instead of
returning a ratio — the claim "never raises for every center" fails. -/
theorem rain_coverage_raises_outside :
    rain_coverage imgBlue 100 0 6 = .error "Coordinate right is less than left" := rfl

/-- C7 amended: `rain_coverage` touches only in-bounds pixels, and for
every center/radius whose clamped crop box is not inverted — in
particular every center inside the image, partial regions at the edges,
and zero-size images — it returns a ratio in [0, 1], with ratio 0 and the
empty-region reason on an empty region; a center beyond the image by more
than the radius inverts the box and PIL `crop` raises instead. -/
theorem coverage_region_safe :
    (∀ (img : Img) (cx cy radius : ℤ) (p : ℤ × ℤ), p ∈ regionIdx img cx cy radius →
        0 ≤ p.1 ∧ p.1 < (img.width : ℤ) ∧ 0 ≤ p.2 ∧ p.2 < (img.height : ℤ)) ∧
    (∀ (img : Img) (cx cy radius : ℤ), boxOk img cx cy radius = true →
        ∃ r, rain_coverage img cx cy radius = .ok r ∧ 0 ≤ r.1 ∧ r.1 ≤ 1) ∧
    (∀ (img : Img) (cx cy radius : ℤ), boxOk img cx cy radius = true →
        regionColors img cx cy radius = [] →
        rain_coverage img cx cy radius = .ok (0, .emptyRegion)) ∧
    (∀ (img : Img) (cx cy radius : ℤ), 0 ≤ cx → cx < (img.width : ℤ) →
        0 ≤ cy → cy < (img.height : ℤ) → 0 ≤ radius → boxOk img cx cy radius = true) := by
  refine ⟨regionIdx_mem, ?_, rain_coverage_empty, ?_⟩
  · intro img cx cy radius hb
    by_cases he : regionColors img cx cy radius = []
    · exact ⟨(0, .emptyRegion), rain_coverage_empty img cx cy radius hb he,
        le_refl 0, by norm_num⟩
    · exact ⟨_, rain_coverage_ok_val img cx cy radius he,
        (rain_coverage_ratio_bounds img cx cy radius he).1,
        (rain_coverage_ratio_bounds img cx cy radius he).2⟩
  · intro img cx cy radius h1 h2 h3 h4 h5
    simp only [boxOk, Bool.and_eq_true, decide_eq_true_eq]
    omega

/-- Witness for C7 (amended): in-bounds indices on the 1-by-1 image, and
the empty-region fallback at a center one past the image edge. -/
theorem coverage_region_safe_witness :
    ((0, 0) ∈ regionIdx imgBlue 0 0 0 ∧
      (0 : ℤ) ≤ ((0 : ℤ), (0 : ℤ)).1 ∧ ((0 : ℤ), (0 : ℤ)).1 < (imgBlue.width : ℤ) ∧
      (0 : ℤ) ≤ ((0 : ℤ), (0 : ℤ)).2 ∧ ((0 : ℤ), (0 : ℤ)).2 < (imgBlue.height : ℤ)) ∧
    (boxOk imgBlue 1 0 0 = true ∧ regionColors imgBlue 1 0 0 = [] ∧
      rain_coverage imgBlue 1 0 0 = .ok (0, .emptyRegion)) :=
  ⟨⟨by decide, coverage_region_safe.1 imgBlue 0 0 0 (0, 0) (by decide)⟩,
   by decide, by decide, coverage_region_safe.2.2.1 imgBlue 1 0 0 (by decide) (by decide)⟩

/-- C10 counterexample: a center far outside the image inverts the crop
box and `avg_color` propagates PIL ValueError rather than returning the
(0, 0, 0) fallback. -/
theorem avg_color_raises_outside :
    avg_color imgBlue 50 50 6 = .error "Coordinate right is less than left" := rfl

/-- C10 amended: whenever the clamped region contains no pixels and the
crop box is not inverted (zero-size image, or center beyond the image by
exactly radius + 1), `avg_color` returns (0, 0, 0) without dividing by
zero; a center further outside inverts the box and PIL `crop` raises. -/
theorem avg_color_empty_region :
    ∀ (img : Img) (cx cy radius : ℤ), boxOk img cx cy radius = true →
      regionColors img cx cy radius = [] →
      avg_color img cx cy radius = .ok (0, 0, 0) := by
  intro img cx cy radius hb he
  have hcrop := crop_region_ok img cx cy radius hb
  simp only [avg_color, hcrop, he, if_pos]

/-- Witness for C10 (amended), at a zero-size image. -/
theorem avg_color_empty_region_witness :
    boxOk imgZero 0 0 6 = true ∧ regionColors imgZero 0 0 6 = [] ∧
      avg_color imgZero 0 0 6 = .ok (0, 0, 0) :=
  ⟨by decide, by decide, avg_color_empty_region imgZero 0 0 6 (by decide) (by decide)⟩

/-- A prefix match survives appending to the haystack. -/
theorem leadsWith_append (n h t : List Char) (hl : leadsWith n h = true) :
    leadsWith n (h ++ t) = true := by
  induction n generalizing h with
  | nil => simp [leadsWith]
  | cons a as ih =>
    cases h with
    | nil => simp [leadsWith] at hl
    | cons b bs =>
      simp only [leadsWith, Bool.and_eq_true, decide_eq_true_eq, List.cons_append] at hl ⊢
      exact ⟨hl.1, ih bs hl.2⟩

/-- The empty needle occurs in every haystack. -/
theorem hasSub_nil_needle (l : List Char) : hasSub [] l = true := by
  cases l <;> simp [hasSub, leadsWith]

/-- A substring occurrence survives appending to the haystack. -/
theorem hasSub_append_left (n a b : List Char) (h : hasSub n a = true) :
    hasSub n (a ++ b) = true := by
  induction a with
  | nil =>
    have hn : n = [] := by
      cases n with
      | nil => rfl
      | cons c cs => simp [hasSub, leadsWith] at h
    subst hn
    exact hasSub_nil_needle _
  | cons c rest ih =>
    simp only [hasSub, Bool.or_eq_true, List.cons_append] at h ⊢
    rcases h with h | h
    · exact Or.inl (leadsWith_append n (c :: rest) b h)
    · exact Or.inr (ih h)

/-- The detection message always contains the literal marker, whatever the
debug string and URL are. -/
theorem containsSub_detect_msg (dbg url : String) :
    containsSub "可能要下雨" (detect_msg dbg url) = true := by
  have base : hasSub "可能要下雨".data "⚠️ 可能要下雨：你家附近检测到雷达回波色带覆盖。\n".data = true := by
    decide
  simp only [containsSub, detect_msg, String.data_append]
  exact hasSub_append_left _ _ _ (hasSub_append_left _ _ _ (hasSub_append_left _ _ _ base))

/-- C8: the detection decision of `main` fires iff the coverage ratio is
at least 0.10; the legacy `rain_score` (warm + purple - penalty_green) is
computed but influences neither the verdict nor the notification; ratio
0.15 posts one payload containing the literal marker 可能要下雨, ratio 0.05
posts nothing. -/
theorem detection_threshold_rule :
    (∀ (rgb : ℚ × ℚ × ℚ) (cov : ℚ) (dbg url : String),
        ((main_decide rgb cov dbg url).detected = true ↔ 10 / 100 ≤ cov)) ∧
    (∀ (rgb rgb2 : ℚ × ℚ × ℚ) (cov : ℚ) (dbg url : String),
        (main_decide rgb cov dbg url).detected = (main_decide rgb2 cov dbg url).detected ∧
        (main_decide rgb cov dbg url).sent = (main_decide rgb2 cov dbg url).sent) ∧
    (∀ (rgb : ℚ × ℚ × ℚ) (cov : ℚ) (dbg url : String),
        (main_decide rgb cov dbg url).score =
          rgb.1 + (rgb.1 + rgb.2.2) * (6 / 10) - rgb.2.1 * (9 / 10)) ∧
    (∀ (rgb : ℚ × ℚ × ℚ) (dbg url : String),
        (main_decide rgb (15 / 100) dbg url).sent = [send_wecom_text (detect_msg dbg url)] ∧
        containsSub "可能要下雨" (detect_msg dbg url) = true) ∧
    (∀ (rgb : ℚ × ℚ × ℚ) (dbg url : String),
        (main_decide rgb (5 / 100) dbg url).sent = []) := by
  refine ⟨?_, ?_, ?_, ?_, ?_⟩
  · intro rgb cov dbg url
    simp [main_decide, ge_iff_le]
  · intro rgb rgb2 cov dbg url
    exact ⟨rfl, rfl⟩
  · intro rgb cov dbg url
    simp [main_decide, rain_score]
  · intro rgb dbg url
    refine ⟨?_, containsSub_detect_msg dbg url⟩
    have hc : ((15 : ℚ) / 100 ≥ 10 / 100) := by norm_num
    simp [main_decide, hc]
  · intro rgb dbg url
    have hc : ¬ ((5 : ℚ) / 100 ≥ 10 / 100) := by norm_num
    simp [main_decide, hc]
